import Mathlib

/-!
Shallow embedding of the rice-phenology classification scripts
(model_loader_utils.py, rice_classification_optimized.py,
rice_classification_with_existing_model.py) and proofs about them.

Python objects are modelled explicitly: an attribute that may be absent is an
Option field (none = hasattr is false); a Python value that may be None is an
inner Option.  Deserialization attempts (pickle.load / joblib.load), the
outcome of the remote train call, and the remote randomColumn generator are
inputs of the embedded functions, since their results come from outside the
scripts.
-/

namespace RicePadi

/-- Configured band list, BANDS_SELECTED in all three scripts. -/
def BANDS_SELECTED : List String :=
  ["API", "NDPI", "RPI", "RVI", "VH_int", "VV_int", "angle"]

/-- MODEL_PATH constant of the scripts. -/
def MODEL_PATH : String := "/content/rf_model.pkl"

/-- A deserialized scikit-learn estimator, as the loader observes it through
isinstance and attribute probing.  Outer Option = the attribute exists
(hasattr); for max_depth the inner Option is the Python value, which can be
None even when the attribute exists. -/
structure SkModel where
  typeName : String
  className : String
  isRandomForestClassifier : Bool
  n_estimators : Option Nat
  max_depth : Option (Option Nat)
  n_features_in : Option Nat
  feature_names_in : Option (List String)
  classes : Option (List Int)
  deriving Repr, DecidableEq

/-- State of a ModelLoader instance (model_loader_utils.py, __init__). -/
structure ModelLoader where
  model_path : String
  bands_selected : List String
  loaded_model : Option SkModel
  deriving Repr, DecidableEq

/-- ModelLoader.__init__: loaded_model starts unset. -/
def ModelLoader.init (path : String) (bands : List String) : ModelLoader :=
  { model_path := path, bands_selected := bands, loaded_model := none }

/-- ModelLoader.load_model.  pickleRes / joblibRes are the outcomes of the two
deserialization attempts (none = the call raised).  Returns the Bool result,
the updated state, and the list of deserialization methods actually attempted,
in order. -/
def ModelLoader.load_model (st : ModelLoader)
    (pickleRes joblibRes : Option SkModel) : Bool × ModelLoader × List String :=
  match pickleRes with
  | some m => (true, { st with loaded_model := some m }, ["pickle"])
  | none =>
    match joblibRes with
    | some m => (true, { st with loaded_model := some m }, ["pickle", "joblib"])
    | none => (false, st, ["pickle", "joblib"])

/-- The dictionary built by ModelLoader.get_model_info: two unconditional
entries plus one optional entry per probed attribute. -/
structure ModelInfo where
  model_type : String
  model_class : String
  n_estimators : Option Nat
  max_depth : Option (Option Nat)
  n_features : Option Nat
  feature_names : Option (List String)
  classes : Option (List Int)
  deriving Repr, DecidableEq

/-- Key set of the info dictionary, in insertion order. -/
def ModelInfo.keys (i : ModelInfo) : List String :=
  ["model_type", "model_class"]
    ++ (if i.n_estimators.isSome then ["n_estimators"] else [])
    ++ (if i.max_depth.isSome then ["max_depth"] else [])
    ++ (if i.n_features.isSome then ["n_features"] else [])
    ++ (if i.feature_names.isSome then ["feature_names"] else [])
    ++ (if i.classes.isSome then ["classes"] else [])

/-- ModelLoader.get_model_info: None when no model is loaded, otherwise the
dictionary with model_type / model_class always present and the optional
entries copied from whichever attributes the object has. -/
def ModelLoader.get_model_info (st : ModelLoader) : Option ModelInfo :=
  match st.loaded_model with
  | none => none
  | some m =>
    some { model_type := m.typeName
           model_class := m.className
           n_estimators := m.n_estimators
           max_depth := m.max_depth
           n_features := m.n_features_in
           feature_names := m.feature_names_in
           classes := m.classes }

/-- Python set equality of two lists of strings: set(a) == set(b). -/
def setEq (a b : List String) : Bool :=
  a.all (fun x => b.contains x) && b.all (fun x => a.contains x)

/-- ModelLoader.validate_model_compatibility: False when nothing is loaded;
then the feature-count check (early return False on mismatch), then the
feature-name set check (early return False on mismatch), else True. -/
def ModelLoader.validate_model_compatibility (st : ModelLoader) : Bool :=
  match st.get_model_info with
  | none => false
  | some info =>
    let countFail :=
      match info.n_features with
      | some nf => nf != st.bands_selected.length
      | none => false
    if countFail then false
    else
      let nameFail :=
        match info.feature_names with
        | some names => !(setEq names st.bands_selected)
        | none => false
      if nameFail then false else true

/-- The hyperparameters handed to ee.Classifier.smileRandomForest; maxDepth =
none means the argument was not passed. -/
structure EEClassifierConfig where
  numberOfTrees : Nat
  maxDepth : Option Nat := none
  deriving Repr, DecidableEq

/-- Python truthiness of the value getattr(model, 'max_depth', None): None is
falsy and an int is truthy iff nonzero. -/
def depthTruthy : Option Nat → Bool
  | some d => d != 0
  | none => false

/-- getattr(self.loaded_model, 'max_depth', None). -/
def SkModel.getattrMaxDepth (m : SkModel) : Option Nat :=
  m.max_depth.getD none

/-- The classifier-instantiation part of ModelLoader.create_ee_model: None
when no model is loaded; for a RandomForestClassifier, numberOfTrees =
getattr(model, 'n_estimators', 100) and maxDepth passed only when truthy;
for any other object, a default 100-tree forest. -/
def ModelLoader.create_ee_model (st : ModelLoader) : Option EEClassifierConfig :=
  match st.loaded_model with
  | none => none
  | some m =>
    if m.isRandomForestClassifier then
      let n_trees := m.n_estimators.getD 100
      let md := m.getattrMaxDepth
      if depthTruthy md then
        some { numberOfTrees := n_trees, maxDepth := md }
      else
        some { numberOfTrees := n_trees, maxDepth := none }
    else
      some { numberOfTrees := 100, maxDepth := none }

/-- ModelLoader.create_ee_model including the remote train call, whose outcome
(trainOk) comes from the remote platform: on a raised exception the method
returns None. -/
def ModelLoader.create_ee_model_trained (st : ModelLoader) (trainOk : Bool) :
    Option EEClassifierConfig :=
  match st.create_ee_model with
  | none => none
  | some cfg => if trainOk then some cfg else none

/-- Result of the helper load_and_create_ee_model, with the warning print of
the advisory compatibility check recorded as a flag. -/
structure LoadCreateResult where
  loaded_model : Option SkModel
  ee_model : Option EEClassifierConfig
  warned : Bool
  deriving Repr, DecidableEq

/-- load_and_create_ee_model (model_loader_utils.py): build a loader, load the
model (return (None, None) on failure), run the compatibility check only for
its warning, then create and return the Earth Engine model regardless. -/
def load_and_create_ee_model (pickleRes joblibRes : Option SkModel)
    (model_path : String) (bands_selected : List String) (trainOk : Bool) :
    LoadCreateResult :=
  let loader := ModelLoader.init model_path bands_selected
  let r := loader.load_model pickleRes joblibRes
  if !r.1 then
    { loaded_model := none, ee_model := none, warned := false }
  else
    let loader := r.2.1
    let warned := !loader.validate_model_compatibility
    let ee_model := loader.create_ee_model_trained trainOk
    { loaded_model := loader.loaded_model, ee_model := ee_model, warned := warned }

/-- An Earth Engine classifier after .train(features, classProperty,
inputProperties), over rows of type α. -/
structure TrainedClassifier (α : Type) where
  numberOfTrees : Nat
  trainSet : List α
  classProperty : String
  inputProperties : List String
  deriving Repr, DecidableEq

/-- FeatureCollection.randomColumn(name, seed): the remote platform attaches a
deterministic pseudo-random value to each row; eeRandom seed i is the value
the platform assigns to row i under that seed. -/
def randomColumn {α : Type} (eeRandom : Nat → Nat → ℚ) (seed : Nat)
    (rows : List α) : List (α × ℚ) :=
  rows.mapIdx fun i a => (a, eeRandom seed i)

/-- What create_fallback_model returns together with the test rows it reserves
for the accuracy evaluation. -/
structure FallbackResult (α : Type) where
  model : TrainedClassifier (α × ℚ)
  test_set : List (α × ℚ)
  deriving Repr, DecidableEq

/-- create_fallback_model (model_loader_utils.py): randomColumn('random', 42),
train on rows with random < 0.8, keep rows with random >= 0.8 for evaluation,
train an n_trees (default 200) random forest on 'FaseNumerik'. -/
def create_fallback_model {α : Type} (eeRandom : Nat → Nat → ℚ)
    (training_data : List α) (bands_selected : List String)
    (n_trees : Nat := 200) : FallbackResult α :=
  let data_acak := randomColumn eeRandom 42 training_data
  let train_set := data_acak.filter fun r => decide (r.2 < 4 / 5)
  let test_set := data_acak.filter fun r => decide (4 / 5 ≤ r.2)
  { model := { numberOfTrees := n_trees
               trainSet := train_set
               classProperty := "FaseNumerik"
               inputProperties := bands_selected }
    test_set := test_set }

/-- Which model the optimized script ends up classifying with. -/
inductive ModelSource (α : Type) where
  | pretrained (cfg : EEClassifierConfig)
  | fallback (res : FallbackResult α)
  deriving Repr, DecidableEq

/-- Section 6 of rice_classification_optimized.py: loaded_successfully is set
only when load_model, validate_model_compatibility and create_ee_model all
succeed; otherwise create_fallback_model(data_latih, BANDS_SELECTED) is used. -/
def pipeline_model {α : Type} (eeRandom : Nat → Nat → ℚ)
    (pickleRes joblibRes : Option SkModel) (trainOk : Bool)
    (bands : List String) (data_latih : List α) : ModelSource α :=
  let r := (ModelLoader.init MODEL_PATH bands).load_model pickleRes joblibRes
  let st := r.2.1
  let attempt : Option EEClassifierConfig :=
    if r.1 then
      if st.validate_model_compatibility then st.create_ee_model_trained trainOk
      else none
    else none
  match attempt with
  | some cfg => ModelSource.pretrained cfg
  | none => ModelSource.fallback (create_fallback_model eeRandom data_latih bands)

/-- ee.Algorithms.If with an already-evaluated condition. -/
def eeIf {α : Type} (cond : Bool) (t f : α) : α := if cond then t else f

/-- ee.String.toLowerCase: lowercase every character. -/
def eeToLower (s : String) : String := String.mk (s.data.map Char.toLower)

/-- Whitespace as trimmed by ee.String.trim. -/
def isWhite (c : Char) : Bool :=
  c == ' ' || c == '\t' || c == '\n' || c == '\r'

/-- ee.String.trim: strip leading and trailing whitespace. -/
def eeTrim (s : String) : String :=
  String.mk (((s.data.dropWhile isWhite).reverse.dropWhile isWhite).reverse)

/-- A training-point feature: its free-text Fase property and the numeric
label, absent until konversi_label_numerik sets it. -/
structure Feature where
  fase : String
  faseNumerik : Option Nat := none
  deriving Repr, DecidableEq

/-- konversi_label_numerik (both classification scripts): lowercase and trim
the Fase string, then the nested ee.Algorithms.If chain picks the code. -/
def konversi_label_numerik (feature : Feature) : Feature :=
  let fase_string := eeTrim (eeToLower feature.fase)
  let fase_numerik :=
    eeIf (fase_string == "vegetatif 1") 1
      (eeIf (fase_string == "vegetatif 2") 2
        (eeIf (fase_string == "generatif") 3
          (eeIf (fase_string == "panen") 4
            (eeIf (fase_string == "bera") 5 0))))
  { feature with faseNumerik := some fase_numerik }

/-- The phase-code table as the spec states it, for comparison with the
nested-If implementation. -/
def faseLabelSpec (s : String) : Nat :=
  let t := eeTrim (eeToLower s)
  if t = "vegetatif 1" then 1
  else if t = "vegetatif 2" then 2
  else if t = "generatif" then 3
  else if t = "panen" then 4
  else if t = "bera" then 5
  else 0

/-- Days since the Unix epoch of a millisecond timestamp, UTC. -/
def daysFromMillis (ms : Int) : Int := Int.fdiv ms 86400000

/-- Proleptic Gregorian civil date (year, month, day) of a days-since-epoch
count. -/
def civilFromDays (z : Int) : Int × Nat × Nat :=
  let zs := z + 719468
  let era : Int := Int.fdiv zs 146097
  let doe : Nat := (zs - era * 146097).toNat
  let yoe : Nat := (doe - doe / 1460 + doe / 36524 - doe / 146096) / 365
  let y : Int := (yoe : Int) + era * 400
  let doy : Nat := doe - (365 * yoe + yoe / 4 - yoe / 100)
  let mp : Nat := (5 * doy + 2) / 153
  let d : Nat := doy - (153 * mp + 2) / 5 + 1
  let m : Nat := if mp < 10 then mp + 3 else mp - 9
  (if m ≤ 2 then y + 1 else y, m, d)

/-- Left-pad a numeral with zeros. -/
def padZeros (w : Nat) (s : String) : String :=
  if s.length < w then String.mk (List.replicate (w - s.length) (Char.ofNat 48)) ++ s
  else s

/-- ee.Date(ms).format('YYYY-MM-dd'), UTC. -/
def eeFormatDate (ms : Int) : String :=
  let c := civilFromDays (daysFromMillis ms)
  padZeros 4 (toString c.1) ++ "-" ++ padZeros 2 (toString c.2.1) ++ "-"
    ++ padZeros 2 (toString c.2.2)

/-- An input image of the collection: its system:time_start property. -/
structure EEImage where
  timeStart : Int
  deriving Repr, DecidableEq

/-- An output of klasifikasi_image: the classified image renamed to one band,
with the copied timestamp and the formatted tanggal property. -/
structure ClassifiedImage where
  bandName : String
  timeStart : Int
  tanggal : String
  deriving Repr, DecidableEq

/-- klasifikasi_image (inner function of klasifikasi_collection in both
classification scripts). -/
def klasifikasi_image (image : EEImage) : ClassifiedImage :=
  { bandName := "classification"
    timeStart := image.timeStart
    tanggal := eeFormatDate image.timeStart }

/-- klasifikasi_collection: map the per-image classification over the
collection. -/
def klasifikasi_collection (collection : List EEImage) : List ClassifiedImage :=
  collection.map klasifikasi_image

/-- Python substring containment on character lists. -/
def containsSub (sub : List Char) : List Char → Bool
  | [] => sub.isEmpty
  | c :: rest => List.isPrefixOf sub (c :: rest) || containsSub sub rest

/-- Python 'sub in s' on strings. -/
def pyIn (sub s : String) : Bool := containsSub sub.data s.data

/-- The removal condition of the clear_layers callback
(rice_classification_optimized.py): 'Klasifikasi' in name and
name != 'Klasifikasi Mean'. -/
def shouldRemove (name : String) : Bool :=
  pyIn "Klasifikasi" name && name != "Klasifikasi Mean"

/-- Map.remove_layer(name): drop the layer with that name. -/
def remove_layer (layers : List String) (name : String) : List String :=
  layers.filter fun n => n != name

/-- clear_layers: snapshot the layer names, then remove each one whose name
matches the condition. -/
def clear_layers (layers : List String) : List String :=
  layers.foldl
    (fun acc name => if shouldRemove name then remove_layer acc name else acc)
    layers

/-! ## Supporting lemmas and sample data -/

/-- Sanity check of the timestamp formatter at the Unix epoch. -/
theorem eeFormatDate_unix_epoch : eeFormatDate 0 = "1970-01-01" := by decide

/-- Sanity check of the timestamp formatter on a leap day. -/
theorem eeFormatDate_leap_day : eeFormatDate 951782400000 = "2000-02-29" := by
  decide

/-- A loaded RandomForestClassifier used to instantiate theorems. -/
def sampleRF : SkModel :=
  { typeName := "RandomForestClassifier"
    className := "class sklearn.ensemble._forest.RandomForestClassifier"
    isRandomForestClassifier := true
    n_estimators := some 150
    max_depth := some (some 10)
    n_features_in := some 7
    feature_names_in := some BANDS_SELECTED
    classes := some [0, 1, 2, 3, 4, 5] }

/-- A loader that has deserialized sampleRF. -/
def sampleLoader : ModelLoader :=
  { model_path := MODEL_PATH
    bands_selected := BANDS_SELECTED
    loaded_model := some sampleRF }

/-! ## Claims -/

/-- C2: load_model tries pickle first; only if pickle raises does it attempt
joblib; it returns True with the deserialized object stored in loaded_model
when either attempt succeeds, and returns False exactly when both raise,
leaving loaded_model unset. -/
theorem load_model_spec (st : ModelLoader) (hinit : st.loaded_model = none)
    (pickleRes joblibRes : Option SkModel) :
    ((st.load_model pickleRes joblibRes).1 = true ↔
      pickleRes.isSome = true ∨ joblibRes.isSome = true) ∧
    (∀ m, pickleRes = some m →
      (st.load_model pickleRes joblibRes).2.1.loaded_model = some m ∧
      (st.load_model pickleRes joblibRes).2.2 = ["pickle"]) ∧
    (∀ m, pickleRes = none → joblibRes = some m →
      (st.load_model pickleRes joblibRes).2.1.loaded_model = some m ∧
      (st.load_model pickleRes joblibRes).2.2 = ["pickle", "joblib"]) ∧
    (pickleRes = none → joblibRes = none →
      (st.load_model pickleRes joblibRes).1 = false ∧
      (st.load_model pickleRes joblibRes).2.1.loaded_model = none ∧
      (st.load_model pickleRes joblibRes).2.2 = ["pickle", "joblib"]) := by
  cases pickleRes <;> cases joblibRes <;>
    simp [ModelLoader.load_model, hinit]

/-- C2 witness: a fresh loader whose pickle and joblib attempts both raise
reports failure and keeps loaded_model unset. -/
theorem load_model_spec_witness :
    ((ModelLoader.init MODEL_PATH BANDS_SELECTED).load_model none none).1
      = false ∧
    ((ModelLoader.init MODEL_PATH
        BANDS_SELECTED).load_model none none).2.1.loaded_model = none ∧
    ((ModelLoader.init MODEL_PATH BANDS_SELECTED).load_model none none).2.2
      = ["pickle", "joblib"] :=
  (load_model_spec (ModelLoader.init MODEL_PATH BANDS_SELECTED) rfl
    none none).2.2.2 rfl rfl

/-- C3: konversi_label_numerik lowercases and trims the Fase string and maps
vegetatif 1 to 1, vegetatif 2 to 2, generatif to 3, panen to 4, bera to 5 and
every other string to 0; the conversion is total (FaseNumerik is always set). -/
theorem konversi_label_numerik_spec (f : Feature) :
    (konversi_label_numerik f).faseNumerik = some (faseLabelSpec f.fase) ∧
    (konversi_label_numerik f).fase = f.fase := by
  refine ⟨?_, rfl⟩
  simp [konversi_label_numerik, faseLabelSpec, eeIf]

/-- C7: get_model_info returns None exactly when no model is loaded, and
otherwise a dictionary that always has model_type and model_class and has each
optional key precisely when the loaded object has the probed attribute. -/
theorem get_model_info_spec (st : ModelLoader) :
    (st.get_model_info = none ↔ st.loaded_model = none) ∧
    (∀ m, st.loaded_model = some m → ∃ info,
      st.get_model_info = some info ∧
      "model_type" ∈ info.keys ∧ "model_class" ∈ info.keys ∧
      ("n_estimators" ∈ info.keys ↔ m.n_estimators.isSome = true) ∧
      ("max_depth" ∈ info.keys ↔ m.max_depth.isSome = true) ∧
      ("n_features" ∈ info.keys ↔ m.n_features_in.isSome = true) ∧
      ("feature_names" ∈ info.keys ↔ m.feature_names_in.isSome = true) ∧
      ("classes" ∈ info.keys ↔ m.classes.isSome = true)) := by
  constructor
  · cases h : st.loaded_model <;> simp [ModelLoader.get_model_info, h]
  · intro m hm
    refine ⟨{ model_type := m.typeName
              model_class := m.className
              n_estimators := m.n_estimators
              max_depth := m.max_depth
              n_features := m.n_features_in
              feature_names := m.feature_names_in
              classes := m.classes },
            by simp [ModelLoader.get_model_info, hm], ?_⟩
    obtain ⟨tn, cn, irf, ne, md, nf, fn, cl⟩ := m
    cases ne <;> cases md <;> cases nf <;> cases fn <;> cases cl <;>
      simp [ModelInfo.keys]

/-- C7 witness: the info dictionary of the sample loader has every optional
key, matching the attributes sampleRF has. -/
theorem get_model_info_spec_witness :
    ∃ info, sampleLoader.get_model_info = some info ∧
      "model_type" ∈ info.keys ∧ "model_class" ∈ info.keys ∧
      ("n_estimators" ∈ info.keys ↔ sampleRF.n_estimators.isSome = true) ∧
      ("max_depth" ∈ info.keys ↔ sampleRF.max_depth.isSome = true) ∧
      ("n_features" ∈ info.keys ↔ sampleRF.n_features_in.isSome = true) ∧
      ("feature_names" ∈ info.keys ↔ sampleRF.feature_names_in.isSome = true) ∧
      ("classes" ∈ info.keys ↔ sampleRF.classes.isSome = true) :=
  (get_model_info_spec sampleLoader).2 sampleRF rfl

/-- Two lists that are permutations of one another are equal as Python sets. -/
theorem setEq_of_perm {a b : List String} (h : a.Perm b) : setEq a b = true := by
  simp only [setEq, Bool.and_eq_true, List.all_eq_true]
  constructor
  · intro x hx
    exact List.elem_iff.mpr (h.mem_iff.mp hx)
  · intro x hx
    exact List.elem_iff.mpr (h.mem_iff.mpr hx)

/-- C4: validate_model_compatibility is False when no model is loaded, and for
a loaded model it is False exactly when the model exposes a feature count
different from the band-list length or exposes feature names whose set differs
from the set of configured bands; otherwise (including a model exposing
neither attribute) it is True. -/
theorem validate_model_compatibility_spec (st : ModelLoader) :
    (st.loaded_model = none → st.validate_model_compatibility = false) ∧
    (∀ m, st.loaded_model = some m →
      (st.validate_model_compatibility = false ↔
        (∃ nf, m.n_features_in = some nf ∧ nf ≠ st.bands_selected.length) ∨
        (∃ names, m.feature_names_in = some names ∧
          setEq names st.bands_selected = false))) := by
  constructor
  · intro h
    simp [ModelLoader.validate_model_compatibility, ModelLoader.get_model_info,
      h]
  · intro m hm
    simp only [ModelLoader.validate_model_compatibility,
      ModelLoader.get_model_info, hm]
    cases hnf : m.n_features_in with
    | none =>
      cases hfn : m.feature_names_in with
      | none => simp
      | some names =>
        by_cases hs : setEq names st.bands_selected = true <;>
          simp [hs, Bool.not_eq_true]
    | some nf =>
      by_cases hc : nf = st.bands_selected.length
      · cases hfn : m.feature_names_in with
        | none => simp [hc]
        | some names =>
          by_cases hs : setEq names st.bands_selected = true <;>
            simp [hc, hs, Bool.not_eq_true]
      · simp [hc, bne_iff_ne]

/-- C4 witness: a loader with nothing loaded fails validation. -/
theorem validate_model_compatibility_spec_witness :
    (ModelLoader.init MODEL_PATH
      BANDS_SELECTED).validate_model_compatibility = false :=
  (validate_model_compatibility_spec
    (ModelLoader.init MODEL_PATH BANDS_SELECTED)).1 rfl

/-- C9: the feature-name check compares names as sets, so a loaded model whose
feature_names_in_ is any permutation of the configured band list (with a
matching feature count, when exposed) passes validation. -/
theorem validate_model_compatibility_perm (st : ModelLoader) (m : SkModel)
    (names : List String) (hm : st.loaded_model = some m)
    (hfn : m.feature_names_in = some names)
    (hperm : names.Perm st.bands_selected)
    (hcount : ∀ nf, m.n_features_in = some nf →
      nf = st.bands_selected.length) :
    st.validate_model_compatibility = true := by
  have hs : setEq names st.bands_selected = true := setEq_of_perm hperm
  simp only [ModelLoader.validate_model_compatibility,
    ModelLoader.get_model_info, hm]
  cases hnf : m.n_features_in with
  | none => simp [hfn, hs]
  | some nf =>
    have := hcount nf hnf
    simp [hfn, hs, this]

/-- A model trained with the bands in a different order than BANDS_SELECTED. -/
def sampleRFPermuted : SkModel :=
  { sampleRF with
    feature_names_in :=
      some ["NDPI", "API", "RVI", "RPI", "angle", "VH_int", "VV_int"] }

/-- C9 witness: a model whose feature names are a permutation of the band list
passes validation. -/
theorem validate_model_compatibility_perm_witness :
    ({ sampleLoader with loaded_model := some sampleRFPermuted } :
      ModelLoader).validate_model_compatibility = true :=
  validate_model_compatibility_perm _ sampleRFPermuted
    ["NDPI", "API", "RVI", "RPI", "angle", "VH_int", "VV_int"] rfl rfl
    (by decide) (by intro nf h; injection h with h; rw [← h]; rfl)

/-- C1: create_ee_model re-instantiates the remote classifier from the loaded
hyperparameters: for a RandomForestClassifier, numberOfTrees equals the
n_estimators of the model, and maxDepth equals its max_depth whenever one is
set; for any other loaded object a default 100-tree forest without maxDepth is
used. -/
theorem create_ee_model_spec (st : ModelLoader) (m : SkModel)
    (hm : st.loaded_model = some m) :
    (m.isRandomForestClassifier = true →
      ∀ n md, m.n_estimators = some n → m.max_depth = some md →
        (∀ d, md = some d → 0 < d) →
        st.create_ee_model = some { numberOfTrees := n, maxDepth := md }) ∧
    (m.isRandomForestClassifier = false →
      st.create_ee_model = some { numberOfTrees := 100, maxDepth := none }) := by
  constructor
  · intro hrf n md hn hmd hpos
    cases md with
    | none =>
      simp [ModelLoader.create_ee_model, hm, hrf, hn, hmd,
        SkModel.getattrMaxDepth, depthTruthy]
    | some d =>
      have hd : d ≠ 0 := Nat.pos_iff_ne_zero.mp (hpos d rfl)
      simp [ModelLoader.create_ee_model, hm, hrf, hn, hmd,
        SkModel.getattrMaxDepth, depthTruthy, hd]
  · intro hrf
    simp [ModelLoader.create_ee_model, hm, hrf]

/-- C1 witness: the sample 150-tree, depth-10 RandomForestClassifier yields an
Earth Engine forest with numberOfTrees 150 and maxDepth 10. -/
theorem create_ee_model_spec_witness :
    sampleLoader.create_ee_model =
      some { numberOfTrees := 150, maxDepth := some 10 } :=
  (create_ee_model_spec sampleLoader sampleRF rfl).1 rfl 150 (some 10) rfl rfl
    (by intro d hd; injection hd with h; omega)

/-- C8: in load_and_create_ee_model a compatibility-validation failure is
advisory: the helper returns (None, None) exactly when deserialization fails,
and for a loaded model it records the warning iff validation failed while
still creating and returning the Earth Engine model. -/
theorem load_and_create_ee_model_spec (pickleRes joblibRes : Option SkModel)
    (path : String) (bands : List String) (trainOk : Bool) :
    (((load_and_create_ee_model pickleRes joblibRes path bands
          trainOk).loaded_model = none ∧
      (load_and_create_ee_model pickleRes joblibRes path bands
          trainOk).ee_model = none) ↔
      (pickleRes = none ∧ joblibRes = none)) ∧
    (∀ m, (load_and_create_ee_model pickleRes joblibRes path bands
          trainOk).loaded_model = some m →
      (load_and_create_ee_model pickleRes joblibRes path bands
          trainOk).ee_model =
        (ModelLoader.mk path bands (some m)).create_ee_model_trained trainOk ∧
      ((load_and_create_ee_model pickleRes joblibRes path bands
          trainOk).warned = true ↔
        (ModelLoader.mk path bands
          (some m)).validate_model_compatibility = false)) := by
  cases pickleRes <;> cases joblibRes <;>
    simp [load_and_create_ee_model, ModelLoader.load_model, ModelLoader.init,
      Bool.not_eq_true]

/-- C8 witness: with a successfully deserialized model the helper returns the
created Earth Engine model and flags the warning iff validation failed. -/
theorem load_and_create_ee_model_spec_witness :
    (load_and_create_ee_model (some sampleRF) none MODEL_PATH BANDS_SELECTED
        true).ee_model =
      (ModelLoader.mk MODEL_PATH BANDS_SELECTED
        (some sampleRF)).create_ee_model_trained true ∧
    ((load_and_create_ee_model (some sampleRF) none MODEL_PATH BANDS_SELECTED
        true).warned = true ↔
      (ModelLoader.mk MODEL_PATH BANDS_SELECTED
        (some sampleRF)).validate_model_compatibility = false) :=
  (load_and_create_ee_model_spec (some sampleRF) none MODEL_PATH
    BANDS_SELECTED true).2 sampleRF rfl

/-- C5: klasifikasi_collection classifies every image of the collection —
the output collection has the same size, and the i-th output is the i-th
input classified, renamed to band classification, carrying the input
system:time_start and that timestamp formatted as YYYY-MM-dd in tanggal. -/
theorem klasifikasi_collection_spec (collection : List EEImage) :
    (klasifikasi_collection collection).length = collection.length ∧
    ∀ i : Nat, (klasifikasi_collection collection)[i]? =
      collection[i]?.map (fun image =>
        { bandName := "classification"
          timeStart := image.timeStart
          tanggal := eeFormatDate image.timeStart }) := by
  constructor
  · simp [klasifikasi_collection]
  · intro i
    simp only [klasifikasi_collection, List.getElem?_map]
    cases collection[i]? <;> simp [klasifikasi_image]

/-- C6: whenever loading the pre-trained classifier fails — deserialization
fails, the model is judged incompatible, or the Earth Engine model cannot be
created — the optimized pipeline classifies with the fallback: a 200-tree
forest trained on the rows whose seeded random column is below 0.8, the rows
at 0.8 or above being reserved for the accuracy evaluation. -/
theorem pipeline_model_fallback {α : Type} (eeRandom : Nat → Nat → ℚ)
    (pickleRes joblibRes : Option SkModel) (trainOk : Bool)
    (data_latih : List α)
    (h : ((ModelLoader.init MODEL_PATH BANDS_SELECTED).load_model pickleRes
            joblibRes).1 = false ∨
      ((ModelLoader.init MODEL_PATH BANDS_SELECTED).load_model pickleRes
          joblibRes).2.1.validate_model_compatibility = false ∨
      ((ModelLoader.init MODEL_PATH BANDS_SELECTED).load_model pickleRes
          joblibRes).2.1.create_ee_model_trained trainOk = none) :
    pipeline_model eeRandom pickleRes joblibRes trainOk BANDS_SELECTED
        data_latih =
      ModelSource.fallback
        { model := { numberOfTrees := 200
                     trainSet := (randomColumn eeRandom 42 data_latih).filter
                       fun r => decide (r.2 < 4 / 5)
                     classProperty := "FaseNumerik"
                     inputProperties := BANDS_SELECTED }
          test_set := (randomColumn eeRandom 42 data_latih).filter
            fun r => decide (4 / 5 ≤ r.2) } := by
  have hcfm : create_fallback_model eeRandom data_latih BANDS_SELECTED =
      { model := { numberOfTrees := 200
                   trainSet := (randomColumn eeRandom 42 data_latih).filter
                     fun r => decide (r.2 < 4 / 5)
                   classProperty := "FaseNumerik"
                   inputProperties := BANDS_SELECTED }
        test_set := (randomColumn eeRandom 42 data_latih).filter
          fun r => decide (4 / 5 ≤ r.2) } := rfl
  rcases h with h | h | h <;>
    simp [pipeline_model, h, hcfm]

/-- Deterministic stand-in for the remote random column used by the C6
witness. -/
def wRandom : Nat → Nat → ℚ := fun _ i => if i == 0 then 1 / 2 else 9 / 10

/-- Two feature rows for the C6 witness. -/
def wData : List Nat := [0, 1]

/-- C6 witness: when both deserialization attempts fail the pipeline uses the
200-tree fallback split at 0.8. -/
theorem pipeline_model_fallback_witness :
    pipeline_model wRandom none none true BANDS_SELECTED wData =
      ModelSource.fallback
        { model := { numberOfTrees := 200
                     trainSet := (randomColumn wRandom 42 wData).filter
                       fun r => decide (r.2 < 4 / 5)
                     classProperty := "FaseNumerik"
                     inputProperties := BANDS_SELECTED }
          test_set := (randomColumn wRandom 42 wData).filter
            fun r => decide (4 / 5 ≤ r.2) } :=
  pipeline_model_fallback wRandom none none true wData (Or.inl rfl)

/-- Removing, for each name of toIter satisfying p, every layer of that name,
amounts to filtering out the accumulator entries that satisfy p and occur in
toIter. -/
theorem foldl_remove_eq_filter (p : String → Bool) :
    ∀ toIter acc : List String,
      toIter.foldl
          (fun a name => if p name then a.filter (fun x => x != name) else a)
          acc
        = acc.filter (fun x => !(p x && toIter.contains x)) := by
  intro toIter
  induction toIter with
  | nil => intro acc; simp
  | cons name rest ih =>
    intro acc
    simp only [List.foldl_cons]
    cases hp : p name with
    | true =>
      rw [if_pos rfl, ih, List.filter_filter]
      apply List.filter_congr
      intro x _
      by_cases hx : x = name
      · subst hx
        simp [hp]
      · simp [hx]
    | false =>
      rw [if_neg (by simp), ih]
      apply List.filter_congr
      intro x _
      by_cases hx : x = name
      · subst hx
        simp [hp]
      · simp [hx]

/-- C10: clear_layers removes exactly the layers whose name contains
Klasifikasi but is not Klasifikasi Mean, leaving every other layer (base
layer, Titik Pelatihan, Klasifikasi Mean, the legend) in place. -/
theorem clear_layers_spec (layers : List String) :
    clear_layers layers = layers.filter (fun n => !shouldRemove n) ∧
    (∀ n, n ∈ layers → shouldRemove n = false → n ∈ clear_layers layers) ∧
    shouldRemove "OpenStreetMap" = false ∧
    shouldRemove "Titik Pelatihan" = false ∧
    shouldRemove "Klasifikasi Mean" = false ∧
    shouldRemove "Legenda" = false ∧
    shouldRemove "Klasifikasi 2024-01-01 s.d. 2024-12-31" = true := by
  have hmain : clear_layers layers
      = layers.filter (fun n => !shouldRemove n) := by
    unfold clear_layers
    simp only [remove_layer]
    rw [foldl_remove_eq_filter shouldRemove layers layers]
    apply List.filter_congr
    intro x hx
    simp [hx]
  refine ⟨hmain, ?_, by decide, by decide, by decide, by decide, by decide⟩
  intro n hn hrem
  rw [hmain]
  exact List.mem_filter.mpr ⟨hn, by simp [hrem]⟩

/-- C10 witness: on the layer list of the script, Titik Pelatihan survives
clear_layers. -/
theorem clear_layers_spec_witness :
    "Titik Pelatihan" ∈ clear_layers
      ["OpenStreetMap", "Titik Pelatihan", "Klasifikasi Mean",
       "Klasifikasi 2024-01-01 s.d. 2024-06-30", "Legenda"] :=
  (clear_layers_spec
      ["OpenStreetMap", "Titik Pelatihan", "Klasifikasi Mean",
       "Klasifikasi 2024-01-01 s.d. 2024-06-30", "Legenda"]).2.1
    "Titik Pelatihan" (by decide) (by decide)

end RicePadi
